import Mathlib

/-!
# Verification of the raw-audio pipeline of the AI Photo Tour Guide app

Shallow embedding of the base64/PCM/WAV transcoding core:

* `atob` — the browser's forgiving-base64 decoder (WHATWG infra standard),
  the platform primitive both decoders call; it fails (`none`) on invalid
  input, which in the browser surfaces as a thrown `InvalidCharacterError`.
* `decodeBase64` — `src/utils/audio.ts` lines 2–10.
* `decodeAudioData` — `src/utils/audio.ts` lines 12–28.  Note that
  `new Int16Array(data.buffer)` throws a `RangeError` when
  `data.buffer.byteLength` is not a multiple of 2 (ECMAScript
  `InitializeTypedArrayFromArrayBuffer`, length omitted), and that
  `ctx.createBuffer(1, frameCount, ctx.sampleRate)` throws a
  `NotSupportedError` when `frameCount` is 0 (Web Audio createBuffer
  nominal-range requirement); the embedding models these as
  `AudioError.rangeError` and `AudioError.notSupportedError`.
* `createWavBlobFromBase64` — `src/utils/audio.ts` lines 41–74.
* `base64toFile` — the image utility (`base64toFile` in the unnamed
  `utils/image` source file).

Bytes are `Nat`s below 256 (`Uint8Array` stores apply `% 256`, the
ECMAScript `ToUint8` conversion); multi-byte header fields are written
little-endian exactly as `DataView.setUint16/setUint32` do (`ToUint16` /
`ToUint32` wrap-around included).  Playback amplitudes `int16 / 32768.0`
are exact in binary floating point (numerator magnitude ≤ 2^15 with ≤ 15
significant bits, denominator a power of two), so they are modelled
faithfully by rationals.
-/

/-- ASCII whitespace per the WHATWG infra standard: TAB, LF, FF, CR, SPACE.
`atob` strips these before decoding. -/
def isAsciiWhitespace (c : Char) : Bool :=
  c = '\t' || c = '\n' || c = '\x0c' || c = '\r' || c = ' '

/-- Value of one character of the standard base64 alphabet, `none` when the
character is outside the alphabet. -/
def base64Val (c : Char) : Option Nat :=
  if 'A' ≤ c ∧ c ≤ 'Z' then some (c.toNat - 65)
  else if 'a' ≤ c ∧ c ≤ 'z' then some (c.toNat - 97 + 26)
  else if '0' ≤ c ∧ c ≤ '9' then some (c.toNat - 48 + 52)
  else if c = '+' then some 62
  else if c = '/' then some 63
  else none

/-- Strip one or two trailing `=` padding characters when the (whitespace
free) input length is a multiple of 4 — step 2 of forgiving-base64 decode. -/
def stripBase64Padding (cs : List Char) : List Char :=
  if cs.length % 4 = 0 then
    match cs.reverse with
    | '=' :: '=' :: rest => rest.reverse
    | '=' :: rest => rest.reverse
    | _ => cs
  else cs

/-- Reassemble the 6-bit values into bytes: each full group of four 6-bit
values yields three bytes; a trailing group of two yields one byte (the low
4 bits are discarded) and a trailing group of three yields two bytes (the
low 2 bits are discarded) — steps 7–9 of forgiving-base64 decode. -/
def assembleBase64 : List Nat → List Nat
  | a :: b :: c :: d :: rest =>
      (a * 4 + b / 16) :: (b % 16 * 16 + c / 4) :: (c % 4 * 64 + d) ::
        assembleBase64 rest
  | [a, b] => [a * 4 + b / 16]
  | [a, b, c] => [a * 4 + b / 16, b % 16 * 16 + c / 4]
  | _ => []

/-- The browser's `atob`: forgiving-base64 decode.  Returns the decoded byte
sequence (the code points of the returned binary string), or `none` when the
input is rejected (a thrown `InvalidCharacterError` in the browser): length
≡ 1 (mod 4) after whitespace/padding removal, or any character outside the
base64 alphabet. -/
def atob (s : String) : Option (List Nat) :=
  let cs := stripBase64Padding (s.toList.filter (fun c => !isAsciiWhitespace c))
  if cs.length % 4 = 1 then none
  else (cs.mapM base64Val).map assembleBase64

/-- The decoder `decodeBase64` (src/utils/audio.ts:2-10): `atob`, then copy
each character code into a fresh `Uint8Array` (the store applies `ToUint8`,
i.e. `% 256`).  The platform decode failure propagates (`none`). -/
def decodeBase64 (base64 : String) : Option (List Nat) :=
  (atob base64).map (fun binaryString => binaryString.map (fun code => code % 256))

/-- Errors the audio pipeline can surface: the platform base64 decode
failure (`InvalidCharacterError` from `atob`), the `RangeError` thrown by
an `Int16Array` view over a buffer whose byte length is odd, and the
`NotSupportedError` thrown by `ctx.createBuffer` when asked for a
zero-length buffer. -/
inductive AudioError where
  | decodeError
  | rangeError
  | notSupportedError
deriving DecidableEq, Repr

/-- The caller's audio-output context: the only field the decoder reads is
its sample rate (`ctx.sampleRate`). -/
structure AudioContextModel where
  sampleRate : Nat
deriving DecidableEq, Repr

/-- The playback buffer produced by `ctx.createBuffer` and filled by the
decoder: channel count, frame count, sample rate and the single channel's
normalized amplitude data. -/
structure AudioBufferModel where
  numChannels : Nat
  frameCount : Nat
  sampleRate : Nat
  channelData : List ℚ
deriving DecidableEq, Repr

/-- Reinterpret two consecutive bytes as one signed 16-bit little-endian
integer, as an `Int16Array` element read does. -/
def toInt16 (lo hi : Nat) : Int :=
  let u := lo % 256 + hi % 256 * 256
  if u < 32768 then (u : Int) else (u : Int) - 65536

/-- The element sequence of an `Int16Array` view over a byte buffer:
consecutive byte pairs as signed 16-bit little-endian integers. -/
def bytesToInt16List : List Nat → List Int
  | lo :: hi :: rest => toInt16 lo hi :: bytesToInt16List rest
  | _ => []

/-- The playback decoder `decodeAudioData` (src/utils/audio.ts:12-28): decode base64, view the
bytes as an `Int16Array` (throws `RangeError` when the byte length is odd),
allocate a mono buffer of `frameCount` frames at `ctx.sampleRate` via
`ctx.createBuffer`, and write `dataInt16[i] / 32768.0` into each frame.

The Web Audio specification requires `createBuffer(numberOfChannels,
length, sampleRate)` to throw `NotSupportedError` when any argument is out
of its nominal range; at this call site `numberOfChannels` is the constant 1
and the sample rate passed is `ctx.sampleRate`, the context's own (always
supported) rate, so the one reachable throw is `length = 0` — modelled as
`AudioError.notSupportedError`. -/
def decodeAudioData (base64 : String) (ctx : AudioContextModel) :
    Except AudioError AudioBufferModel :=
  match decodeBase64 base64 with
  | none => .error .decodeError
  | some data =>
      if data.length % 2 ≠ 0 then .error .rangeError
      else
        let dataInt16 := bytesToInt16List data
        let frameCount := dataInt16.length
        let numChannels := 1
        if frameCount = 0 then .error .notSupportedError
        else
          Except.ok
            { numChannels := numChannels
              frameCount := frameCount
              sampleRate := ctx.sampleRate
              channelData := dataInt16.map (fun s : Int => (s : ℚ) / 32768) }

/-- A `Blob`: a byte sequence tagged with a MIME type. -/
structure BlobModel where
  bytes : List Nat
  mimeType : String
deriving DecidableEq, Repr

/-- The helper `writeString` (src/utils/audio.ts:30-34): write each character code of
`str` as one byte (`setUint8` applies `ToUint8`, i.e. `% 256`). -/
def writeStringBytes (str : String) : List Nat :=
  str.toList.map (fun c => c.toNat % 256)

/-- The four bytes `DataView.setUint32(·, n, true)` writes: `ToUint32`
wrap-around then little-endian byte order. -/
def uint32le (n : Nat) : List Nat :=
  [n % 256, n / 256 % 256, n / 65536 % 256, n / 16777216 % 256]

/-- The two bytes `DataView.setUint16(·, n, true)` writes: `ToUint16`
wrap-around then little-endian byte order. -/
def uint16le (n : Nat) : List Nat :=
  [n % 256, n / 256 % 256]

/-- The WAV encoder `createWavBlobFromBase64` (src/utils/audio.ts:41-74): decode the base64
PCM payload and prepend the 44-byte RIFF/WAVE header, with sample rate
24000, one channel and 16 bits per sample hard-coded. -/
def createWavBlobFromBase64 (base64 : String) : Except AudioError BlobModel :=
  match decodeBase64 base64 with
  | none => .error .decodeError
  | some pcmData =>
      let sampleRate := 24000
      let numChannels := 1
      let bitsPerSample := 16
      let dataSize := pcmData.length
      let header : List Nat :=
        writeStringBytes "RIFF" ++ uint32le (36 + dataSize) ++
        writeStringBytes "WAVE" ++
        writeStringBytes "fmt " ++ uint32le 16 ++ uint16le 1 ++
        uint16le numChannels ++ uint32le sampleRate ++
        uint32le (sampleRate * numChannels * (bitsPerSample / 8)) ++
        uint16le (numChannels * (bitsPerSample / 8)) ++ uint16le bitsPerSample ++
        writeStringBytes "data" ++ uint32le dataSize
      Except.ok { bytes := header ++ pcmData, mimeType := "audio/wav" }

/-- A `File`: a byte sequence tagged with a filename and a MIME type. -/
structure FileModel where
  bytes : List Nat
  name : String
  type : String
deriving DecidableEq, Repr

/-- The adapter `base64toFile` (utils/image): `atob`, copy each character code into a
plain array, convert it to a `Uint8Array` (each element through `ToUint8`,
i.e. `% 256`), wrap in a `Blob` and then a `File` carrying the filename and
MIME type.  The platform decode failure propagates. -/
def base64toFile (base64 filename mimeType : String) :
    Except AudioError FileModel :=
  match atob base64 with
  | none => .error .decodeError
  | some byteCharacters =>
      let byteNumbers := byteCharacters.map (fun code => code)
      let byteArray := byteNumbers.map (fun v => v % 256)
      Except.ok { bytes := byteArray, name := filename, type := mimeType }

/-- Read the unsigned little-endian 16-bit field at byte offset `off` of a
byte sequence (spec-side observer for the §6 header table). -/
def readU16 (l : List Nat) (off : Nat) : Nat :=
  l.getD off 0 + 256 * l.getD (off + 1) 0

/-- Read the unsigned little-endian 32-bit field at byte offset `off` of a
byte sequence (spec-side observer for the §6 header table). -/
def readU32 (l : List Nat) (off : Nat) : Nat :=
  l.getD off 0 + 256 * l.getD (off + 1) 0 + 65536 * l.getD (off + 2) 0 +
    16777216 * l.getD (off + 3) 0

/-- Read the four-byte ASCII tag at byte offset `off` of a byte sequence
(spec-side observer for the §6 header table). -/
def readTag (l : List Nat) (off : Nat) : List Nat :=
  [l.getD off 0, l.getD (off + 1) 0, l.getD (off + 2) 0, l.getD (off + 3) 0]

/-- The 44 header bytes the encoder emits for a payload of `d` bytes, fully
flattened (helper for reasoning about `createWavBlobFromBase64`). -/
def wavHeaderBytes (d : Nat) : List Nat :=
  [82, 73, 70, 70,
   (36 + d) % 256, (36 + d) / 256 % 256, (36 + d) / 65536 % 256, (36 + d) / 16777216 % 256,
   87, 65, 86, 69,
   102, 109, 116, 32,
   16, 0, 0, 0,
   1, 0,
   1, 0,
   192, 93, 0, 0,
   128, 187, 0, 0,
   2, 0,
   16, 0,
   100, 97, 116, 97,
   d % 256, d / 256 % 256, d / 65536 % 256, d / 16777216 % 256]

theorem writeStringBytes_RIFF : writeStringBytes "RIFF" = [82, 73, 70, 70] := by decide

theorem writeStringBytes_WAVE : writeStringBytes "WAVE" = [87, 65, 86, 69] := by decide

theorem writeStringBytes_fmt : writeStringBytes "fmt " = [102, 109, 116, 32] := by decide

theorem writeStringBytes_data : writeStringBytes "data" = [100, 97, 116, 97] := by decide

/-- Reconstructing a value below 2^32 from its four little-endian bytes. -/
theorem le_digits_reconstruct (n : Nat) (h : n < 4294967296) :
    n % 256 + 256 * (n / 256 % 256) + 65536 * (n / 65536 % 256) +
      16777216 * (n / 16777216 % 256) = n := by
  omega

/-- On a successful decode the encoder returns exactly the flattened header
followed by the payload, tagged `audio/wav`. -/
theorem createWav_ok (s : String) (B : List Nat) (h : decodeBase64 s = some B) :
    createWavBlobFromBase64 s =
      Except.ok ⟨wavHeaderBytes B.length ++ B, "audio/wav"⟩ := by
  simp [createWavBlobFromBase64, h, wavHeaderBytes, writeStringBytes_RIFF,
    writeStringBytes_WAVE, writeStringBytes_fmt, writeStringBytes_data,
    uint32le, uint16le]

/-- The 16-bit view holds one element per full byte pair. -/
theorem bytesToInt16List_length : ∀ l : List Nat, (bytesToInt16List l).length = l.length / 2
  | [] => rfl
  | [_] => by simp [bytesToInt16List]
  | _ :: _ :: rest => by
      simp only [bytesToInt16List, List.length_cons, bytesToInt16List_length rest]
      omega

/-- On a successful decode of a nonempty even-length payload the playback
decoder returns the mono buffer at the context's sample rate whose channel
data is the normalized 16-bit samples. -/
theorem decodeAudioData_ok_eq (s : String) (ctx : AudioContextModel) (B : List Nat)
    (h : decodeBase64 s = some B) (hev : B.length % 2 = 0) (hne : B ≠ []) :
    decodeAudioData s ctx = Except.ok
      { numChannels := 1
        frameCount := (bytesToInt16List B).length
        sampleRate := ctx.sampleRate
        channelData := (bytesToInt16List B).map (fun v : Int => (v : ℚ) / 32768) } := by
  have hlen : B.length ≠ 0 := fun h0 => hne (List.length_eq_zero.mp h0)
  have hfc : (bytesToInt16List B).length ≠ 0 := by
    rw [bytesToInt16List_length]
    omega
  simp [decodeAudioData, h, hev, hfc]

/-- The encoder output has 44 header bytes before the payload. -/
theorem wavBytes_length (d : Nat) (B : List Nat) :
    (wavHeaderBytes d ++ B).length = 44 + B.length := by
  rw [List.length_append]; rfl

/-- The ChunkSize field of the encoder output decodes to 36 + dataSize. -/
theorem wavBytes_chunkSize (d : Nat) (B : List Nat) (h : 36 + d < 4294967296) :
    readU32 (wavHeaderBytes d ++ B) 4 = 36 + d :=
  le_digits_reconstruct (36 + d) h

/-- The Subchunk2Size field of the encoder output decodes to dataSize. -/
theorem wavBytes_dataSize (d : Nat) (B : List Nat) (h : d < 4294967296) :
    readU32 (wavHeaderBytes d ++ B) 40 = d :=
  le_digits_reconstruct d h

/-- The SampleRate field of the encoder output decodes to 24000. -/
theorem wavBytes_sampleRate (d : Nat) (B : List Nat) :
    readU32 (wavHeaderBytes d ++ B) 24 = 24000 := by
  have h : 192 + 256 * 93 + 65536 * 0 + 16777216 * 0 = 24000 := by norm_num
  exact h

/-- The ByteRate field of the encoder output decodes to 48000. -/
theorem wavBytes_byteRate (d : Nat) (B : List Nat) :
    readU32 (wavHeaderBytes d ++ B) 28 = 48000 := by
  have h : 128 + 256 * 187 + 65536 * 0 + 16777216 * 0 = 48000 := by norm_num
  exact h

/-- C1: for every byte sequence B of even, non-negative length, encoding the
base64 of B to WAV yields a byte buffer of exactly 44 + len(B) bytes — a
44-byte RIFF/WAVE header with little-endian fields ChunkID="RIFF",
ChunkSize=36+len(B), Format="WAVE", Subchunk1ID="fmt ", Subchunk1Size=16,
AudioFormat=1, NumChannels=1, SampleRate=24000, ByteRate=48000, BlockAlign=2,
BitsPerSample=16, Subchunk2ID="data", Subchunk2Size=len(B) — followed by B
verbatim.  (The 32-bit size fields require 36+len(B) < 2^32, the range of
`setUint32`.) -/
theorem wav_layout_of_even_payload (s : String) (B : List Nat)
    (h : decodeBase64 s = some B) (hev : B.length % 2 = 0)
    (hsize : 36 + B.length < 4294967296) :
    ∃ blob, createWavBlobFromBase64 s = Except.ok blob ∧
      blob.mimeType = "audio/wav" ∧
      blob.bytes.length = 44 + B.length ∧
      readTag blob.bytes 0 = [82, 73, 70, 70] ∧
      readU32 blob.bytes 4 = 36 + B.length ∧
      readTag blob.bytes 8 = [87, 65, 86, 69] ∧
      readTag blob.bytes 12 = [102, 109, 116, 32] ∧
      readU32 blob.bytes 16 = 16 ∧
      readU16 blob.bytes 20 = 1 ∧
      readU16 blob.bytes 22 = 1 ∧
      readU32 blob.bytes 24 = 24000 ∧
      readU32 blob.bytes 28 = 48000 ∧
      readU16 blob.bytes 32 = 2 ∧
      readU16 blob.bytes 34 = 16 ∧
      readTag blob.bytes 36 = [100, 97, 116, 97] ∧
      readU32 blob.bytes 40 = B.length ∧
      blob.bytes.drop 44 = B :=
  ⟨⟨wavHeaderBytes B.length ++ B, "audio/wav"⟩, createWav_ok s B h, rfl,
    wavBytes_length B.length B, rfl,
    wavBytes_chunkSize B.length B hsize, rfl, rfl, rfl, rfl, rfl,
    wavBytes_sampleRate B.length B, wavBytes_byteRate B.length B,
    rfl, rfl, rfl, wavBytes_dataSize B.length B (by omega), rfl⟩

/-- Witness for C1 at the §8 example payload `[0x00, 0x01, 0x00, 0x02]`,
whose base64 is "AAEAAg==": a 48-byte file with ChunkSize 40 and
Subchunk2Size 4 whose last four bytes are the payload. -/
theorem wav_layout_of_even_payload_witness :
    decodeBase64 "AAEAAg==" = some [0, 1, 0, 2] ∧
    (∃ blob, createWavBlobFromBase64 "AAEAAg==" = Except.ok blob ∧
      blob.mimeType = "audio/wav" ∧
      blob.bytes.length = 44 + ([0, 1, 0, 2] : List Nat).length ∧
      readTag blob.bytes 0 = [82, 73, 70, 70] ∧
      readU32 blob.bytes 4 = 36 + ([0, 1, 0, 2] : List Nat).length ∧
      readTag blob.bytes 8 = [87, 65, 86, 69] ∧
      readTag blob.bytes 12 = [102, 109, 116, 32] ∧
      readU32 blob.bytes 16 = 16 ∧
      readU16 blob.bytes 20 = 1 ∧
      readU16 blob.bytes 22 = 1 ∧
      readU32 blob.bytes 24 = 24000 ∧
      readU32 blob.bytes 28 = 48000 ∧
      readU16 blob.bytes 32 = 2 ∧
      readU16 blob.bytes 34 = 16 ∧
      readTag blob.bytes 36 = [100, 97, 116, 97] ∧
      readU32 blob.bytes 40 = ([0, 1, 0, 2] : List Nat).length ∧
      blob.bytes.drop 44 = [0, 1, 0, 2]) :=
  ⟨by decide,
    wav_layout_of_even_payload "AAEAAg==" [0, 1, 0, 2] (by decide) (by decide) (by decide)⟩

/-- Reading a frame of the normalized channel data divides the
corresponding 16-bit sample by 32768. -/
theorem getD_map_normalize (l : List Int) (i : Nat) (hi : i < l.length) :
    (l.map (fun v : Int => (v : ℚ) / 32768)).getD i 0 = (l.getD i 0 : ℚ) / 32768 := by
  rw [List.getD_eq_getElem _ _ (by rw [List.length_map]; exact hi),
    List.getD_eq_getElem _ _ hi, List.getElem_map]

/-- C2: the playback decoder computes every frame amplitude as
`int16[i] / 32768.0`; its channel data is exactly the 16-bit little-endian
samples of the decoded payload, each divided by 32768. -/
theorem playback_frame_normalization (s : String) (ctx : AudioContextModel) (B : List Nat)
    (h : decodeBase64 s = some B) (hev : B.length % 2 = 0) (hne : B ≠ []) :
    ∃ buf, decodeAudioData s ctx = Except.ok buf ∧
      buf.frameCount = (bytesToInt16List B).length ∧
      buf.channelData = (bytesToInt16List B).map (fun v : Int => (v : ℚ) / 32768) ∧
      ∀ i, i < buf.frameCount →
        buf.channelData.getD i 0 = ((bytesToInt16List B).getD i 0 : ℚ) / 32768 :=
  ⟨_, decodeAudioData_ok_eq s ctx B h hev hne, rfl, rfl,
    fun i hi => getD_map_normalize (bytesToInt16List B) i hi⟩

/-- Witness for C2: decoding "/38=" (int16 value 32767) yields the frame
32767/32768; decoding "AIA=" (bytes 0x00 0x80, int16 value -32768) yields
exactly -1; decoding "AAA=" (int16 value 0) yields 0. -/
theorem playback_frame_normalization_witness :
    (∃ buf, decodeAudioData "/38=" ⟨24000⟩ = Except.ok buf ∧
      buf.channelData = [(32767 : ℚ) / 32768]) ∧
    (∃ buf, decodeAudioData "AIA=" ⟨24000⟩ = Except.ok buf ∧
      buf.channelData = [(-1 : ℚ)]) ∧
    (∃ buf, decodeAudioData "AAA=" ⟨24000⟩ = Except.ok buf ∧
      buf.channelData = [(0 : ℚ)]) := by
  refine ⟨?_, ?_, ?_⟩
  · obtain ⟨buf, h1, -, h2, -⟩ :=
      playback_frame_normalization "/38=" ⟨24000⟩ [255, 127] (by decide) (by decide)
        (by decide)
    refine ⟨buf, h1, ?_⟩
    rw [h2]
    norm_num [bytesToInt16List, toInt16]
  · obtain ⟨buf, h1, -, h2, -⟩ :=
      playback_frame_normalization "AIA=" ⟨24000⟩ [0, 128] (by decide) (by decide)
        (by decide)
    refine ⟨buf, h1, ?_⟩
    rw [h2]
    norm_num [bytesToInt16List, toInt16]
  · obtain ⟨buf, h1, -, h2, -⟩ :=
      playback_frame_normalization "AAA=" ⟨24000⟩ [0, 0] (by decide) (by decide)
        (by decide)
    refine ⟨buf, h1, ?_⟩
    rw [h2]
    norm_num [bytesToInt16List, toInt16]

/-- C3: the encoder half of the claim holds — the empty base64 string
yields the 44-byte silent WAV with ChunkSize 36, Subchunk2Size 0 and no
trailing data — but the playback half does not: at frameCount 0 the
`ctx.createBuffer(1, 0, ctx.sampleRate)` call throws `NotSupportedError`,
so `decodeAudioData("")` rejects instead of returning the zero-frame buffer
the claim (and spec §8.4) demands. -/
theorem zero_length_boundary_behavior :
    (∃ blob, createWavBlobFromBase64 "" = Except.ok blob ∧
      blob.bytes.length = 44 ∧
      readU32 blob.bytes 4 = 36 ∧
      readU32 blob.bytes 40 = 0 ∧
      blob.bytes.drop 44 = []) ∧
    (∀ ctx : AudioContextModel,
      decodeAudioData "" ctx = Except.error AudioError.notSupportedError) :=
  ⟨⟨_, rfl, rfl, rfl, rfl, rfl⟩, fun _ => rfl⟩

/-- C4 counterexample: the empty payload has even decoded byte length
N = 0, yet the decoder produces no buffer at all — `createBuffer` rejects
the zero length — so it does not have N / 2 = 0 frames. -/
theorem playback_frame_count_refuted :
    decodeAudioData "" ⟨24000⟩ = Except.error AudioError.notSupportedError ∧
    decodeAudioData "" ⟨24000⟩ ≠ Except.ok ⟨1, 0, 24000, []⟩ := by
  have h1 : decodeAudioData "" ⟨24000⟩ = Except.error AudioError.notSupportedError := rfl
  exact ⟨h1, fun hc => Except.noConfusion (h1.symm.trans hc)⟩

/-- C4 amended: for every valid payload of even, nonzero decoded byte
length N, the playback buffer has exactly N / 2 frames and a single
channel (at N = 0 the decoder errors in `createBuffer`). -/
theorem playback_frame_count (s : String) (ctx : AudioContextModel) (B : List Nat)
    (h : decodeBase64 s = some B) (hev : B.length % 2 = 0) (hne : B ≠ []) :
    ∃ buf, decodeAudioData s ctx = Except.ok buf ∧
      buf.frameCount = B.length / 2 ∧ buf.numChannels = 1 :=
  ⟨_, decodeAudioData_ok_eq s ctx B h hev hne, bytesToInt16List_length B, rfl⟩

/-- Witness for C4: the four-byte payload of "AAEAAg==" yields two frames. -/
theorem playback_frame_count_witness :
    ∃ buf, decodeAudioData "AAEAAg==" ⟨24000⟩ = Except.ok buf ∧
      buf.frameCount = ([0, 1, 0, 2] : List Nat).length / 2 ∧ buf.numChannels = 1 :=
  playback_frame_count "AAEAAg==" ⟨24000⟩ [0, 1, 0, 2] (by decide) (by decide) (by decide)

/-- C5: for every input string that is not valid base64, each of the four
entry points — the base64 byte decoder, decode-for-playback, encode-to-wav
and decode-to-file — fails with the propagated platform decode error rather
than returning a truncated or zero-filled buffer. -/
theorem invalid_base64_rejected_everywhere (s f m : String) (ctx : AudioContextModel)
    (h : atob s = none) :
    decodeBase64 s = none ∧
    decodeAudioData s ctx = Except.error AudioError.decodeError ∧
    createWavBlobFromBase64 s = Except.error AudioError.decodeError ∧
    base64toFile s f m = Except.error AudioError.decodeError := by
  have hd : decodeBase64 s = none := by simp [decodeBase64, h]
  refine ⟨hd, ?_, ?_, ?_⟩
  · simp [decodeAudioData, hd]
  · simp [createWavBlobFromBase64, hd]
  · simp [base64toFile, h]

/-- Witness for C5 at the invalid input "!", which is outside the base64
alphabet. -/
theorem invalid_base64_rejected_everywhere_witness :
    atob "!" = none ∧
    (decodeBase64 "!" = none ∧
      decodeAudioData "!" ⟨24000⟩ = Except.error AudioError.decodeError ∧
      createWavBlobFromBase64 "!" = Except.error AudioError.decodeError ∧
      base64toFile "!" "photo.jpg" "image/jpeg" = Except.error AudioError.decodeError) :=
  ⟨by decide,
    invalid_base64_rejected_everywhere "!" "photo.jpg" "image/jpeg" ⟨24000⟩ (by decide)⟩

/-- C6 counterexample: at "AA==" (decoded payload [0x00], odd length 1) the
playback decoder raises the `Int16Array` range error instead of completing
without error with floor(1/2) = 0 frames — the claimed silent truncation
does not happen. -/
theorem odd_payload_truncation_refuted :
    decodeAudioData "AA==" ⟨24000⟩ = Except.error AudioError.rangeError ∧
    decodeAudioData "AA==" ⟨24000⟩ ≠ Except.ok ⟨1, 0, 24000, []⟩ := by
  have h1 : decodeAudioData "AA==" ⟨24000⟩ = Except.error AudioError.rangeError := rfl
  exact ⟨h1, fun hcontra => Except.noConfusion (h1.symm.trans hcontra)⟩

/-- C6 amended: when the decoded byte length of the payload is odd, the
playback decoder raises an error — the `RangeError` the `Int16Array` view
construction throws for a buffer whose byte length is not a multiple of 2 —
rather than truncating the trailing byte and completing. -/
theorem odd_payload_raises_range_error (s : String) (ctx : AudioContextModel) (B : List Nat)
    (h : decodeBase64 s = some B) (hodd : B.length % 2 = 1) :
    decodeAudioData s ctx = Except.error AudioError.rangeError := by
  simp [decodeAudioData, h, hodd]

/-- Witness for the amended C6 at the odd-length payload of "AA==". -/
theorem odd_payload_raises_range_error_witness :
    decodeAudioData "AA==" ⟨24000⟩ = Except.error AudioError.rangeError :=
  odd_payload_raises_range_error "AA==" ⟨24000⟩ [0] (by decide) (by decide)

/-- C7: the playback buffer's sample rate is whatever the caller's
audio-output context specifies, while the WAV header's SampleRate field is
hard-coded to 24000 — the two parameters are not coupled. -/
theorem sample_rate_decoupling (s : String) (ctx : AudioContextModel) (B : List Nat)
    (h : decodeBase64 s = some B) (hev : B.length % 2 = 0) (hne : B ≠ []) :
    (∃ buf, decodeAudioData s ctx = Except.ok buf ∧ buf.sampleRate = ctx.sampleRate) ∧
    (∃ blob, createWavBlobFromBase64 s = Except.ok blob ∧
      readU32 blob.bytes 24 = 24000) :=
  ⟨⟨_, decodeAudioData_ok_eq s ctx B h hev hne, rfl⟩,
    ⟨⟨wavHeaderBytes B.length ++ B, "audio/wav"⟩, createWav_ok s B h,
      wavBytes_sampleRate B.length B⟩⟩

/-- Witness for C7 at a context whose sample rate 44100 differs from the
hard-coded 24000 of the WAV header. -/
theorem sample_rate_decoupling_witness :
    (∃ buf, decodeAudioData "AAA=" ⟨44100⟩ = Except.ok buf ∧
      buf.sampleRate = 44100) ∧
    (∃ blob, createWavBlobFromBase64 "AAA=" = Except.ok blob ∧
      readU32 blob.bytes 24 = 24000) :=
  sample_rate_decoupling "AAA=" ⟨44100⟩ [0, 0] (by decide) (by decide) (by decide)

/-- C8: decode-to-file produces a file whose byte content is exactly the
base64 decode of the input and which carries the given filename and MIME
type verbatim. -/
theorem base64toFile_fidelity (b f m : String) (B : List Nat)
    (h : decodeBase64 b = some B) :
    base64toFile b f m = Except.ok ⟨B, f, m⟩ := by
  cases hat : atob b with
  | none => simp [decodeBase64, hat] at h
  | some l =>
      have hB : l.map (fun code => code % 256) = B := by
        simpa [decodeBase64, hat] using h
      simp [base64toFile, hat, hB]

/-- Witness for C8: base64toFile("AAAA", "photo.jpg", "image/jpeg") yields
the three bytes [0, 0, 0] named "photo.jpg" with type "image/jpeg". -/
theorem base64toFile_fidelity_witness :
    decodeBase64 "AAAA" = some [0, 0, 0] ∧
    base64toFile "AAAA" "photo.jpg" "image/jpeg" =
      Except.ok ⟨[0, 0, 0], "photo.jpg", "image/jpeg"⟩ :=
  ⟨by decide, base64toFile_fidelity "AAAA" "photo.jpg" "image/jpeg" [0, 0, 0] (by decide)⟩

/-- C9 (implicit): the WAV encoder imposes no evenness precondition — every
decoded payload, odd length included, yields 44 + dataSize bytes with
Subchunk2Size = dataSize and the decoded bytes copied verbatim. -/
theorem wav_encoder_accepts_odd_payload (s : String) (B : List Nat)
    (h : decodeBase64 s = some B) (hsize : B.length < 4294967296) :
    ∃ blob, createWavBlobFromBase64 s = Except.ok blob ∧
      blob.bytes.length = 44 + B.length ∧
      readU32 blob.bytes 40 = B.length ∧
      blob.bytes.drop 44 = B :=
  ⟨⟨wavHeaderBytes B.length ++ B, "audio/wav"⟩, createWav_ok s B h,
    wavBytes_length B.length B, wavBytes_dataSize B.length B hsize, rfl⟩

/-- Witness for C9 at the odd-length (one byte) payload of "AA==". -/
theorem wav_encoder_accepts_odd_payload_witness :
    ∃ blob, createWavBlobFromBase64 "AA==" = Except.ok blob ∧
      blob.bytes.length = 44 + ([0] : List Nat).length ∧
      readU32 blob.bytes 40 = ([0] : List Nat).length ∧
      blob.bytes.drop 44 = [0] :=
  wav_encoder_accepts_odd_payload "AA==" [0] (by decide) (by decide)

/-- C10 (implicit): the two independently implemented base64 decoders — the
audio utility's `decodeBase64` and the inline decoding loop of
`base64toFile` — compute the same byte function: on every input they either
produce identical byte sequences or both fail. -/
theorem base64_decoders_agree (s f m : String) :
    (base64toFile s f m).toOption.map FileModel.bytes = decodeBase64 s := by
  cases hat : atob s with
  | none => simp [base64toFile, decodeBase64, hat, Except.toOption]
  | some l => simp [base64toFile, decodeBase64, hat, Except.toOption]

/-- Concrete evaluations of the embedded platform decoder, matching the
worked examples of the specification. -/
theorem atob_examples :
    atob "" = some [] ∧
    atob "AAAA" = some [0, 0, 0] ∧
    atob "AAEAAg==" = some [0, 1, 0, 2] ∧
    atob "AA==" = some [0] ∧
    atob "/38=" = some [255, 127] ∧
    atob "AIA=" = some [0, 128] ∧
    atob "!" = none := by
  refine ⟨?_, ?_, ?_, ?_, ?_, ?_, ?_⟩ <;> decide

/-- Concrete evaluations of the 16-bit little-endian reinterpretation. -/
theorem bytesToInt16List_examples :
    bytesToInt16List [255, 127] = [32767] ∧
    bytesToInt16List [0, 128] = [-32768] ∧
    bytesToInt16List [0, 0] = [0] := by
  refine ⟨?_, ?_, ?_⟩ <;> decide
